import Mathlib

/-
Verification development for the insect-egg image annotation tool
(`parse_egg_images.py`).  The Python source is shallowly embedded:

* pixel coordinates are exact integers (`ℤ`), intermediate real-valued
  arithmetic is modelled exactly over `ℚ` and `ℝ` (Python floats are
  treated as exact decimal/rational values);
* Python `int()` truncation, Python 2 floor division and `dict` state
  are modelled explicitly;
* a Python `ZeroDivisionError` is modelled by an explicit result
  constructor: before every division performed by the source, the
  embedding tests the denominator and returns the error constructor
  when the source would raise.
-/

set_option maxHeartbeats 1000000

namespace Egg

/-- Python `int()` applied to an exact rational value: truncation toward zero. -/
def pyint (q : ℚ) : ℤ :=
if q < 0 then -(⌊-q⌋) else ⌊q⌋

/-- Squared Euclidean distance between two points.  The source function
`distance` returns the square root of this value. -/
def distSq (pt1 pt2 : ℚ × ℚ) : ℚ :=
(pt2.1 - pt1.1) ^ 2 + (pt2.2 - pt1.2) ^ 2

/-- Source `distance`: Euclidean distance between two points, as a real. -/
noncomputable def distance (pt1 pt2 : ℚ × ℚ) : ℝ :=
Real.sqrt ((distSq pt1 pt2 : ℚ) : ℝ)

/-- Source `midpoint` on integer pixel coordinates: Python 2 `/` on ints is
floor division, so a non-integer coordinate is rounded down. -/
def midpoint (pt1 pt2 : ℤ × ℤ) : ℤ × ℤ :=
((pt1.1 + pt2.1).fdiv 2, (pt1.2 + pt2.2).fdiv 2)

/-- Coordinates of an integer pixel point as a rational point. -/
def qpt (p : ℤ × ℤ) : ℚ × ℚ :=
((p.1 : ℚ), (p.2 : ℚ))

/-- Result of the source `get_circle_center`:
`dne` models the `('DNE', 'DNE')` return (degenerate input),
`divByZero` models an uncaught Python `ZeroDivisionError`,
`ok center radiusSq` models a successful return, carrying the SQUARE of
the returned radius (the source returns `radius = sqrt radiusSq`). -/
inductive CircleResult
| dne : CircleResult
| divByZero : CircleResult
| ok (center : ℚ × ℚ) (radiusSq : ℚ) : CircleResult
deriving DecidableEq

/-- The variable reassignment at the top of `get_circle_center`: make sure
that neither of the two selected line segments is vertical.  Returns the
triple `((x1,y1),(x2,y2),(x3,y3))` used by the slope formulas. -/
def reorder (pt1 pt2 pt3 : ℚ × ℚ) : (ℚ × ℚ) × (ℚ × ℚ) × (ℚ × ℚ) :=
if pt1.1 = pt2.1 then (pt2, pt3, pt1)
else if pt2.1 = pt3.1 then (pt3, pt1, pt2)
else (pt1, pt2, pt3)

/-- The initial vertical-collinearity test of `get_circle_center`. -/
def allSameX (pt1 pt2 pt3 : ℚ × ℚ) : Prop :=
pt1.1 = pt2.1 ∧ pt1.1 = pt3.1

instance (pt1 pt2 pt3 : ℚ × ℚ) : Decidable (allSameX pt1 pt2 pt3) :=
inferInstanceAs (Decidable (_ ∧ _))

/-- The slope/center computation of `get_circle_center` (source lines after
the reordering), on the reordered coordinates.  `orig` is the original
`pt1` argument, from which the source measures the returned radius.
Each division of the source is preceded here by an explicit test of its
denominator; a zero denominator yields `divByZero`, modelling the
`ZeroDivisionError` Python would raise at that division. -/
def circle_core (x1 y1 x2 y2 x3 y3 : ℚ) (orig : ℚ × ℚ) : CircleResult :=
if x2 - x1 = 0 then .divByZero
else
  let slope_a := (y2 - y1) / (x2 - x1)
  if x3 - x2 = 0 then .divByZero
  else
    let slope_b := (y3 - y2) / (x3 - x2)
    if slope_a = slope_b then .dne
    else if 2 * (slope_b - slope_a) = 0 then .divByZero
    else
      let x_center := (slope_a * slope_b * (y1 - y3) + slope_b * (x1 + x2)
        - slope_a * (x2 + x3)) / (2 * (slope_b - slope_a))
      if slope_a = 0 then .divByZero
      else
        let y_center := (-1 / slope_a) * (x_center - (x1 + x2) / 2) + (y1 + y2) / 2
        .ok (x_center, y_center) (distSq (x_center, y_center) orig)

/-- Source `get_circle_center`: circumcircle of three points via the
two-chord construction.  Returns `dne` for the vertical collinear triple,
then reorders the points so that neither chord is vertical and runs the
slope computation. -/
def get_circle_center (pt1 pt2 pt3 : ℚ × ℚ) : CircleResult :=
if pt1.1 = pt2.1 ∧ pt1.1 = pt3.1 then .dne
else
  circle_core (reorder pt1 pt2 pt3).1.1 (reorder pt1 pt2 pt3).1.2
    (reorder pt1 pt2 pt3).2.1.1 (reorder pt1 pt2 pt3).2.1.2
    (reorder pt1 pt2 pt3).2.2.1 (reorder pt1 pt2 pt3).2.2.2 pt1

/-- Three points are collinear (vanishing of the orientation determinant). -/
def collinear (pt1 pt2 pt3 : ℚ × ℚ) : Prop :=
(pt2.1 - pt1.1) * (pt3.2 - pt1.2) = (pt3.1 - pt1.1) * (pt2.2 - pt1.2)

instance (pt1 pt2 pt3 : ℚ × ℚ) : Decidable (collinear pt1 pt2 pt3) :=
inferInstanceAs (Decidable (_ = _))

/-- The first chord used by `get_circle_center` (after reordering) is
horizontal: its two endpoints have equal y-coordinates. -/
def horizFirstChord (pt1 pt2 pt3 : ℚ × ℚ) : Prop :=
(reorder pt1 pt2 pt3).1.2 = (reorder pt1 pt2 pt3).2.1.2

instance (pt1 pt2 pt3 : ℚ × ℚ) : Decidable (horizFirstChord pt1 pt2 pt3) :=
inferInstanceAs (Decidable (_ = _))

/-- Hard-coded maximum allowable display width in pixels (`screen_max_w`). -/
def screen_max_w : ℚ := 1400

/-- Hard-coded maximum allowable display height in pixels (`screen_max_h`). -/
def screen_max_h : ℚ := 800

/-- The default zoom factor of `calc_new_view` (`zoom_scale = 1.3`). -/
def zoom_scale : ℚ := 13 / 10

/-- Rounding to the nearest integer, as `cv2.resize` does when it derives
the output image dimensions from the scale factors. -/
def pyround (q : ℚ) : ℤ :=
⌊q + 1 / 2⌋

/-- Width of the zoomed window in `calc_new_view`:
`int((w_max - w_min) / zoom_scale)`. -/
def new_window_width (w_min w_max : ℤ) : ℤ :=
pyint (((w_max : ℚ) - (w_min : ℚ)) / zoom_scale)

/-- Height of the zoomed window in `calc_new_view`:
`int(screen_max_h * new_window_width / screen_max_w)` — derived from the
display aspect ratio, not from the current viewport height. -/
def new_window_height (w_min w_max : ℤ) : ℤ :=
pyint (screen_max_h * (new_window_width w_min w_max : ℚ) / screen_max_w)

/-- The two sequential translation steps `calc_new_view` applies on one
axis: if the window starts before `lo`, shift it up by `abs(a - lo)`;
then if it ends after `hi`, shift it down by `abs(hi - b)`. -/
def shift_into (lo hi a b : ℤ) : ℤ × ℤ :=
let p := if a < lo then (a + |a - lo|, b + |a - lo|) else (a, b)
if hi < p.2 then (p.1 - |hi - p.2|, p.2 - |hi - p.2|) else p

/-- Source `calc_new_view`: computes the bounds of the updated, zoomed-in
view.  Mouse-click coordinates are converted to the original dimensions,
a new window of width `(w_max - w_min)/zoom_scale` and display-aspect
height is centered there, and each axis is translated (not shrunk) when
it exceeds the CURRENT viewport bounds. -/
def calc_new_view (h_min h_max w_min w_max res_height res_width click_h click_w : ℤ) :
    ℤ × ℤ × ℤ × ℤ :=
let orig_click_h := h_min + pyint (((click_h : ℚ) / (res_height : ℚ)) * ((h_max : ℚ) - (h_min : ℚ)))
let orig_click_w := w_min + pyint (((click_w : ℚ) / (res_width : ℚ)) * ((w_max : ℚ) - (w_min : ℚ)))
let nww := new_window_width w_min w_max
let nwh := new_window_height w_min w_max
let ph := shift_into h_min h_max (orig_click_h - nwh.fdiv 2) (orig_click_h + nwh.fdiv 2)
let pw := shift_into w_min w_max (orig_click_w - nww.fdiv 2) (orig_click_w + nww.fdiv 2)
(ph.1, ph.2, pw.1, pw.2)

/-- The display resolution `(res_h, res_w)` that `make_new_view` produces
for a viewport: a single scale factor fits the crop to `screen_max_w`,
re-computed against `screen_max_h` when the scaled height is too large;
`cv2.resize` rounds the resulting dimensions. -/
def make_new_view_res (h_min h_max w_min w_max : ℤ) : ℤ × ℤ :=
let f0 := screen_max_w / ((w_max : ℚ) - (w_min : ℚ))
let f := if ((h_max : ℚ) - (h_min : ℚ)) * f0 > screen_max_h
  then screen_max_h / ((h_max : ℚ) - (h_min : ℚ)) else f0
(pyround (((h_max : ℚ) - (h_min : ℚ)) * f), pyround (((w_max : ℚ) - (w_min : ℚ)) * f))

/-- One right-click zoom step of the outer interaction loop: the viewport
is displayed through `make_new_view` (fixing `res_h`, `res_w`) and
`calc_new_view` is called on the stored click coordinates `(cy, cx)`. -/
def zoom_step (h_min h_max w_min w_max click_x click_y : ℤ) : ℤ × ℤ × ℤ × ℤ :=
let res := make_new_view_res h_min h_max w_min w_max
calc_new_view h_min h_max w_min w_max res.1 res.2 click_y click_x

/-- The subset of the `image_data` dictionary written by mouse clicks
(`annotate_image`).  Each field models one `im_...` dictionary key;
`none` means the key is absent.  `p_circle_center` and `radius_sq` hold
`some none` when the source stored the string `'DNE'`; `radius_sq` holds
the SQUARE of the stored float radius (the source stores
`sqrt radius_sq`). -/
structure ClickData where
  box_h1 : Option ℤ := none
  box_h2 : Option ℤ := none
  box_w1 : Option ℤ := none
  box_w2 : Option ℤ := none
  p_length_1 : Option (ℤ × ℤ) := none
  p_length_2 : Option (ℤ × ℤ) := none
  p_midpoint_1 : Option (ℤ × ℤ) := none
  p_midpoint_2 : Option (ℤ × ℤ) := none
  p_egg_middle : Option (ℤ × ℤ) := none
  p_circle_center : Option (Option (ℚ × ℚ)) := none
  radius_sq : Option (Option ℚ) := none
  p_1st_quart_1 : Option (ℤ × ℤ) := none
  p_1st_quart_2 : Option (ℤ × ℤ) := none
  p_3rd_quart_1 : Option (ℤ × ℤ) := none
  p_3rd_quart_2 : Option (ℤ × ℤ) := none
  p_scale_bar_1 : Option (ℤ × ℤ) := none
  p_scale_bar_2 : Option (ℤ × ℤ) := none
deriving DecidableEq

/-- The values of the global `mode` string. -/
inductive Mode
| box : Mode
| pts8 : Mode
| pts4 : Mode
| scaleBar : Mode
| zoomIn : Mode
| zoomOut : Mode
| reset : Mode
| next : Mode
| quit : Mode
deriving DecidableEq

/-- The keystrokes the inner interaction loop distinguishes. -/
inductive Key
| esc : Key
| keyN : Key
| minus : Key
| delete : Key
| keyB : Key
| key8 : Key
| key4 : Key
| keyS : Key
| other : Key
deriving DecidableEq

/-- The global mutable session state of `process_one_image` /
`annotate_image`: previous and current click coordinates, mode, click
counters, viewport, display resolution and the accumulating
measurement dictionary.  `crashed` models an uncaught exception escaping
the mouse callback (it never arises on the flows the claims exercise). -/
structure Session where
  px : ℤ
  py : ℤ
  cx : ℤ
  cy : ℤ
  mode : Mode
  points : ℤ
  sb_ends : ℤ
  h_min : ℤ
  h_max : ℤ
  w_min : ℤ
  w_max : ℤ
  res_h : ℤ
  res_w : ℤ
  image_data : ClickData
  crashed : Bool
deriving DecidableEq

/-- The initial session state of `process_one_image` for an image of
`img_h` by `img_w` pixels (source lines initializing the globals). -/
def init_session (img_h img_w : ℤ) : Session :=
{ px := -1, py := -1, cx := 0, cy := 0, mode := .box, points := 1, sb_ends := 1,
  h_min := 0, h_max := img_h, w_min := 0, w_max := img_w,
  res_h := img_h, res_w := img_w, image_data := {}, crashed := false }

/-- The `EVENT_LBUTTONUP` handler of `annotate_image`: converts the click
to original-image coordinates and dispatches on the current mode and
click counter, storing landmarks into `image_data`.  `px, py` are
updated at the end of the handler (skipped on the `crashed` paths, where
the source would raise before reaching that line). -/
def left_click (s : Session) (x y : ℤ) : Session :=
let raw_h := s.h_min + pyint (((y : ℚ) / (s.res_h : ℚ)) * ((s.h_max : ℚ) - (s.h_min : ℚ)))
let raw_w := s.w_min + pyint (((x : ℚ) / (s.res_w : ℚ)) * ((s.w_max : ℚ) - (s.w_min : ℚ)))
if s.mode = .box then
  if s.px ≠ -1 then
    let raw_box_h1 := raw_h
    let raw_box_w1 := raw_w
    let raw_box_h2 := s.h_min + pyint (((s.py : ℚ) / (s.res_h : ℚ)) * ((s.h_max : ℚ) - (s.h_min : ℚ)))
    let raw_box_w2 := s.w_min + pyint (((s.px : ℚ) / (s.res_w : ℚ)) * ((s.w_max : ℚ) - (s.w_min : ℚ)))
    let d1 := if raw_box_h1 < raw_box_h2
      then { s.image_data with box_h1 := some raw_box_h1, box_h2 := some raw_box_h2 }
      else { s.image_data with box_h1 := some raw_box_h2, box_h2 := some raw_box_h1 }
    let d2 := if raw_box_w1 < raw_box_w2
      then { d1 with box_w1 := some raw_box_w1, box_w2 := some raw_box_w2 }
      else { d1 with box_w1 := some raw_box_w2, box_w2 := some raw_box_w1 }
    { s with image_data := d2, px := x, py := y }
  else
    { s with px := x, py := y }
else if s.mode = .pts8 ∨ s.mode = .pts4 then
  if s.points = 1 then
    { s with
      image_data := { s.image_data with
      p_length_1 := some (raw_w, raw_h) },
      points := s.points + 1, px := x, py := y }
  else if s.points = 2 then
    { s with
      image_data := { s.image_data with
      p_length_2 := some (raw_w, raw_h) },
      points := s.points + 1, px := x, py := y }
  else if s.points = 3 then
    { s with
      image_data := { s.image_data with
      p_midpoint_1 := some (raw_w, raw_h) },
      points := s.points + 1, px := x, py := y }
  else if s.points = 4 then
    let d1 := { s.image_data with p_midpoint_2 := some (raw_w, raw_h) }
    if s.mode = .pts8 then
      match d1.p_midpoint_1 with
      | none => { s with image_data := d1, points := s.points + 1, crashed := true }
      | some m1 =>
        let em := midpoint (raw_w, raw_h) m1
        let d2 := { d1 with p_egg_middle := some em }
        match d2.p_length_1, d2.p_length_2 with
        | some l1, some l2 =>
          (match get_circle_center (qpt em) (qpt l1) (qpt l2) with
           | .ok c rsq =>
             { s with
               image_data := { d2 with
                 p_circle_center := some (some c),
                 radius_sq := some (some rsq) },
               points := s.points + 1, px := x, py := y }
           | .dne =>
             { s with
               image_data := { d2 with
                 p_circle_center := some none,
                 radius_sq := some none },
               points := s.points + 1, px := x, py := y }
           | .divByZero =>
             { s with image_data := d2, points := s.points + 1, crashed := true })
        | _, _ => { s with image_data := d2, points := s.points + 1, crashed := true }
    else
      { s with image_data := d1, points := s.points + 1, px := x, py := y }
  else if s.points = 5 ∧ s.mode = .pts8 then
    { s with
      image_data := { s.image_data with
      p_1st_quart_1 := some (raw_w, raw_h) },
      points := s.points + 1, px := x, py := y }
  else if s.points = 6 ∧ s.mode = .pts8 then
    let d1 := { s.image_data with p_1st_quart_2 := some (raw_w, raw_h) }
    match d1.p_egg_middle, d1.p_length_2 with
    | some _, some _ =>
      { s with image_data := d1, points := s.points + 1, px := x, py := y }
    | _, _ => { s with image_data := d1, crashed := true }
  else if s.points = 7 ∧ s.mode = .pts8 then
    { s with
      image_data := { s.image_data with
      p_3rd_quart_1 := some (raw_w, raw_h) },
      points := s.points + 1, px := x, py := y }
  else if s.points = 8 ∧ s.mode = .pts8 then
    { s with
      image_data := { s.image_data with
      p_3rd_quart_2 := some (raw_w, raw_h) },
      points := s.points + 1, px := x, py := y }
  else
    { s with px := x, py := y }
else if s.mode = .scaleBar then
  if s.sb_ends = 1 then
    { s with
      image_data := { s.image_data with
      p_scale_bar_1 := some (raw_w, raw_h) },
      sb_ends := s.sb_ends + 1, px := x, py := y }
  else if s.sb_ends = 2 then
    { s with
      image_data := { s.image_data with
      p_scale_bar_2 := some (raw_w, raw_h) },
      px := x, py := y }
  else
    { s with px := x, py := y }
else
  { s with px := x, py := y }

/-- The `EVENT_RBUTTONUP` handler of `annotate_image`: store the click
location and switch to zoom-in mode. -/
def right_click (s : Session) (x y : ℤ) : Session :=
{ s with cx := x, cy := y, mode := .zoomIn }

/-- The keystroke dispatch of the inner interaction loop of
`process_one_image`: mode-select keys set `mode`; the `8` and `4` keys
additionally reset the `points` counter to 1; the `s` key does NOT touch
`sb_ends`; no key clears `image_data` (the Delete key only sets the
`reset` mode, whose handling lives in the outer loop). -/
def key_press (s : Session) (k : Key) : Session :=
match k with
| .esc => { s with mode := .quit }
| .keyN => { s with mode := .next }
| .minus => { s with mode := .zoomOut }
| .delete => { s with mode := .reset }
| .keyB => { s with mode := .box }
| .key8 => { s with mode := .pts8, points := 1 }
| .key4 => { s with mode := .pts4, points := 1 }
| .keyS => { s with mode := .scaleBar }
| .other => s

/-- Euclidean distance between two integer pixel points, as the source
`distance` computes it on click coordinates. -/
noncomputable def distPx (pt1 pt2 : ℤ × ℤ) : ℝ :=
distance (qpt pt1) (qpt pt2)

/-- The scale-bar unit the operator types: `u` for microns, `m` for
millimeters. -/
inductive SBUnits
| u : SBUnits
| m : SBUnits
deriving DecidableEq

/-- The fields the measurement finalizer of `process_one_image` (lines
after the click loop) adds to `image_data`, plus the qualitative
answers.  `none` means the key is absent; `radius_mm = some none` models
the stored string `'DNE'`. -/
structure FinalOut where
  status : Option String := none
  sb_length_mm : Option ℝ := none
  mm_per_px : Option ℝ := none
  sb_length_px : Option ℝ := none
  length_straight_px : Option ℝ := none
  width_px : Option ℝ := none
  asym : Option ℝ := none
  curvature_deg : Option ℝ := none
  curvature_rad : Option ℝ := none
  length_curved_px : Option ℝ := none
  length_straight : Option ℝ := none
  width : Option ℝ := none
  radius_mm : Option (Option ℝ) := none
  length_curved : Option ℝ := none
  magnification : Option ℚ := none
  q_image_type : Option String := none
  q_development : Option String := none
  q_operculum : Option String := none
  q_geo_pattern : Option String := none

/-- The curvature angle (radians) the eight-point finalizer computes
when the circle fit succeeded (source `curvature_rad`): the inverse
cosine of the dot product of the two radius vectors divided by the
squared radius, corrected by subtraction from `2*3.1415` (the source's
two-pi approximation) when the egg-middle landmark lies farther from
the straight-line midpoint of the two poles than the radius. -/
noncomputable def eggCurv (l1 l2 : ℤ × ℤ) (c : ℚ × ℚ) (rsq : ℚ) (em : ℤ × ℤ) : ℝ :=
let radius : ℝ := Real.sqrt ((rsq : ℚ) : ℝ)
let dot : ℚ := ((l1.1 : ℚ) - c.1) * ((l2.1 : ℚ) - c.1)
  + ((l1.2 : ℚ) - c.2) * ((l2.2 : ℚ) - c.2)
let theta : ℝ := Real.arccos (((dot : ℚ) : ℝ) / radius ^ 2)
if radius < distPx em (midpoint l1 l2) then 2 * (3.1415 : ℝ) - theta else theta

/-- The absolute-parameter block (source lines guarded by
`'im_mm_per_px' in image_data`): rescale length and width by the
calibration factor, and for an eight-point session also derive the
radius and curved length in millimeters (`'DNE'` radius propagates, with
the curved length falling back to the straight length).  `curv` is the
local `curvature_rad` Python variable. -/
noncomputable def absolute_block (fo : FinalOut) (l1 l2 m1 m2 : ℤ × ℤ) (points : ℤ)
    (rad : Option (Option ℚ)) (curv : ℝ) : Option FinalOut :=
match fo.mm_per_px with
| none => some fo
| some mpp =>
  let ls := mpp * distPx l1 l2
  let fo1 := { fo with
    status := some "absolute",
    length_straight := some ls,
    width := some (mpp * distPx m1 m2) }
  if points = 9 then
    match rad with
    | none => none
    | some none => some { fo1 with radius_mm := some none, length_curved := some ls }
    | some (some rsq) =>
      let rmm := mpp * Real.sqrt ((rsq : ℚ) : ℝ)
      some { fo1 with radius_mm := some (some rmm), length_curved := some (curv * rmm) }
  else
    some fo1

/-- The measurement finalizer of `process_one_image` (box status, scale
calibration, relative shape parameters, curvature, absolute shape
parameters), as a function of the accumulated click data, the final
`points` counter and the operator's scale-bar entry.  `none` models a
`KeyError` on a missing dictionary key (unreachable on the flows the
source can produce). -/
noncomputable def finalize (d : ClickData) (points : ℤ) (units : SBUnits)
    (reported : ℚ) : Option FinalOut :=
let fo0 : FinalOut := {}
let fo1 := if d.box_h1.isSome then { fo0 with status := some "box" } else fo0
let fo2 :=
  match d.p_scale_bar_1 with
  | none => fo1
  | some sb1 =>
    match d.p_scale_bar_2 with
    | none => fo1
    | some sb2 =>
      let adjusted : ℚ := match units with
        | .u => reported / 1000
        | .m => reported
      let dpx := distPx sb1 sb2
      { fo1 with
        sb_length_mm := some ((adjusted : ℚ) : ℝ),
        mm_per_px := some (((adjusted : ℚ) : ℝ) / dpx),
        sb_length_px := some dpx }
if points = 5 ∨ points = 9 then
  match d.p_length_1, d.p_length_2, d.p_midpoint_1, d.p_midpoint_2 with
  | some l1, some l2, some m1, some m2 =>
    let fo3 := { fo2 with
      status := some "relative",
      length_straight_px := some (distPx l1 l2),
      width_px := some (distPx m1 m2) }
    if points = 9 then
      match d.p_1st_quart_1, d.p_1st_quart_2, d.p_3rd_quart_1, d.p_3rd_quart_2 with
      | some q11, some q12, some q31, some q32 =>
        let ql1 := distPx q11 q12
        let ql3 := distPx q31 q32
        let fo4 := { fo3 with
          asym := some (if ql1 < ql3 then ql3 / ql1 else ql1 / ql3) }
        (match d.radius_sq with
         | none => none
         | some none =>
           absolute_block { fo4 with curvature_deg := some 0, curvature_rad := some 0 }
             l1 l2 m1 m2 points d.radius_sq 0
         | some (some rsq) =>
           match d.p_circle_center, d.p_egg_middle with
           | some (some c), some em =>
             let curv : ℝ := eggCurv l1 l2 c rsq em
             absolute_block { fo4 with
                 curvature_deg := some (curv * 180 / (3.1415 : ℝ)),
                 curvature_rad := some curv,
                 length_curved_px := some (curv * Real.sqrt ((rsq : ℚ) : ℝ)) }
               l1 l2 m1 m2 points d.radius_sq curv
           | _, _ => none)
      | _, _, _, _ => none
    else
      absolute_block fo3 l1 l2 m1 m2 points d.radius_sq 0
  | _, _, _, _ => none
else
  some fo2

/-- Heterogeneous dictionary values of `image_data` and of the record
store entries: integers, pixel points, rational points, floats and
strings. -/
inductive Val
| i (n : ℤ) : Val
| pt (p : ℤ × ℤ) : Val
| qv (q : ℚ × ℚ) : Val
| r (x : ℝ) : Val
| s (st : String) : Val

/-- A Python dictionary as an association list (each key at most once in
everything the model builds). -/
abbrev Dict : Type := List (String × Val)

/-- Dictionary lookup (first match). -/
def lookupD : Dict → String → Option Val
| [], _ => none
| (k1, v1) :: rest, k => if k = k1 then some v1 else lookupD rest k

/-- Set one key of a dictionary: replace the existing binding or append. -/
def setKey : Dict → String → Val → Dict
| [], k, v => [(k, v)]
| (k1, v1) :: rest, k, v =>
  if k = k1 then (k, v) :: rest else (k1, v1) :: setKey rest k v

/-- Python `dict.update`: set every binding of `u` in `d`. -/
def updateDict (d : Dict) (u : Dict) : Dict :=
u.foldl (fun a p => setKey a p.1 p.2) d

/-- The key/value pairs the annotation session can produce, in one fixed
table: every key carries the `im_` image-measurement prefix.  Values
mirror the source's stored Python values (`im_radius_px` stores the
float `sqrt radius_sq`; a degenerate circle stores the string `'DNE'`). -/
noncomputable def outPairs (d : ClickData) (fo : FinalOut) : List (String × Option Val) :=
[("im_box_h1", d.box_h1.map .i),
 ("im_box_h2", d.box_h2.map .i),
 ("im_box_w1", d.box_w1.map .i),
 ("im_box_w2", d.box_w2.map .i),
 ("im_p_length_1", d.p_length_1.map .pt),
 ("im_p_length_2", d.p_length_2.map .pt),
 ("im_p_midpoint_1", d.p_midpoint_1.map .pt),
 ("im_p_midpoint_2", d.p_midpoint_2.map .pt),
 ("im_p_egg_middle", d.p_egg_middle.map .pt),
 ("im_p_circle_center", d.p_circle_center.map (fun o => match o with
   | none => Val.s "DNE"
   | some c => Val.qv c)),
 ("im_radius_px", d.radius_sq.map (fun o => match o with
   | none => Val.s "DNE"
   | some rsq => Val.r (Real.sqrt ((rsq : ℚ) : ℝ)))),
 ("im_p_1st_quart_1", d.p_1st_quart_1.map .pt),
 ("im_p_1st_quart_2", d.p_1st_quart_2.map .pt),
 ("im_p_3rd_quart_1", d.p_3rd_quart_1.map .pt),
 ("im_p_3rd_quart_2", d.p_3rd_quart_2.map .pt),
 ("im_p_scale_bar_1", d.p_scale_bar_1.map .pt),
 ("im_p_scale_bar_2", d.p_scale_bar_2.map .pt),
 ("im_status", fo.status.map .s),
 ("im_sb_length_mm", fo.sb_length_mm.map .r),
 ("im_mm_per_px", fo.mm_per_px.map .r),
 ("im_sb_length_px", fo.sb_length_px.map .r),
 ("im_length_straight_px", fo.length_straight_px.map .r),
 ("im_width_px", fo.width_px.map .r),
 ("im_asym", fo.asym.map .r),
 ("im_curvature_deg", fo.curvature_deg.map .r),
 ("im_curvature_rad", fo.curvature_rad.map .r),
 ("im_length_curved_px", fo.length_curved_px.map .r),
 ("im_length_straight", fo.length_straight.map .r),
 ("im_width", fo.width.map .r),
 ("im_radius_mm", fo.radius_mm.map (fun o => match o with
   | none => Val.s "DNE"
   | some x => Val.r x)),
 ("im_length_curved", fo.length_curved.map .r),
 ("im_magnification", fo.magnification.map (fun q => Val.r ((q : ℚ) : ℝ))),
 ("im_q_image_type", fo.q_image_type.map .s),
 ("im_q_development", fo.q_development.map .s),
 ("im_q_operculum", fo.q_operculum.map .s),
 ("im_q_geo_pattern", fo.q_geo_pattern.map .s)]

/-- The `image_data` dictionary contents for a session with click data
`d` and finalizer output `fo`: the present entries of `outPairs`. -/
noncomputable def outDict (d : ClickData) (fo : FinalOut) : Dict :=
(outPairs d fo).filterMap (fun p => p.2.map (fun v => (p.1, v)))

/-- End of `process_one_image` after the click loop: run the finalizer,
then either record `im_status = 'none'` when nothing at all was
measured, or collect the qualitative answers and the confirmation; a
declined confirmation returns the empty dictionary. -/
noncomputable def process_result (d : ClickData) (points : ℤ) (units : SBUnits)
    (reported : ℚ) (q_image_type q_development q_operculum q_geo_pattern : String)
    (magnification : Option ℚ) (confirm : Bool) : Option Dict :=
match finalize d points units reported with
| none => none
| some fo =>
  match outDict d fo with
  | [] => some [("im_status", Val.s "none")]
  | _ =>
    let fo1 := { fo with
      magnification := magnification,
      q_image_type := some q_image_type,
      q_development := some q_development,
      q_operculum := some q_operculum,
      q_geo_pattern := some q_geo_pattern }
    if confirm then some (outDict d fo1) else some []

/-- A key carries the image-measurement prefix: its first three
characters are `im_`.  (Expressed on the character list so that concrete
instances are decidable.) -/
def isImKey (k : String) : Bool :=
k.toList.take 3 = ['i', 'm', '_']

/-- The `im_status` value test of the record-selection loop in `main`:
a record is (status-)eligible for annotation when the field is absent or
equal to `'missing'`. -/
def status_eligible (rec : Dict) : Bool :=
match lookupD rec "im_status" with
| none => true
| some (Val.s st) => st = "missing"
| some _ => false

/-- The read loop of `main`: each input line is `some r` when `eval`
decodes it into a dictionary, `none` when it raises a `SyntaxError`
(malformed).  Decoded lines are appended to `file_list`, but
`number_of_entries` is incremented for EVERY line, malformed ones
included. -/
def parse_lines (lines : List (Option Dict)) : List Dict × ℕ :=
(lines.filterMap id, lines.length)

/-- The entry loop `for j in xrange(number_of_entries)` of `main`: each
iteration reads `file_list[j]` (modelled as processing that record); an
index past the end of the list raises an uncaught `IndexError` and
aborts the run.  Returns the records processed, in order, and whether
the run aborted. -/
def entry_loop (file_list : List Dict) : ℕ → ℕ → List Dict × Bool
| _, 0 => ([], false)
| j, k + 1 =>
  match file_list.get? j with
  | none => ([], true)
  | some r =>
    let rest := entry_loop file_list (j + 1) k
    (r :: rest.1, rest.2)

/-- `main`'s record traversal: parse every line, then iterate the entry
loop over `number_of_entries` indices of `file_list`. -/
def main_read_loop (lines : List (Option Dict)) : List Dict × Bool :=
entry_loop (parse_lines lines).1 0 (parse_lines lines).2

/-! ### Theorems -/

theorem slope_eq_iff (x1 y1 x2 y2 x3 y3 : ℚ) (h21 : x2 - x1 ≠ 0) (h32 : x3 - x2 ≠ 0) :
    (y2 - y1) / (x2 - x1) = (y3 - y2) / (x3 - x2) ↔
      (y2 - y1) * (x3 - x2) = (y3 - y2) * (x2 - x1) :=
  div_eq_div_iff h21 h32

theorem circle_core_dne (x1 y1 x2 y2 x3 y3 : ℚ) (o : ℚ × ℚ)
    (h21 : x2 - x1 ≠ 0) (h32 : x3 - x2 ≠ 0)
    (hcol : (y2 - y1) * (x3 - x2) = (y3 - y2) * (x2 - x1)) :
    circle_core x1 y1 x2 y2 x3 y3 o = .dne := by
  rw [circle_core, if_neg h21, if_neg h32,
    if_pos ((slope_eq_iff x1 y1 x2 y2 x3 y3 h21 h32).mpr hcol)]

theorem circle_core_divByZero (x1 y1 x2 y2 x3 y3 : ℚ) (o : ℚ × ℚ)
    (h21 : x2 - x1 ≠ 0) (h32 : x3 - x2 ≠ 0)
    (hy : y1 = y2) (hy3 : y3 ≠ y2) :
    circle_core x1 y1 x2 y2 x3 y3 o = .divByZero := by
  have hsa : (y2 - y1) / (x2 - x1) = 0 := by rw [hy, sub_self, zero_div]
  have hsb : (y3 - y2) / (x3 - x2) ≠ 0 := div_ne_zero (sub_ne_zero.mpr hy3) h32
  have hne : (y2 - y1) / (x2 - x1) ≠ (y3 - y2) / (x3 - x2) := by
    rw [hsa]; exact fun h => hsb h.symm
  have h2 : 2 * ((y3 - y2) / (x3 - x2) - (y2 - y1) / (x2 - x1)) ≠ 0 :=
    mul_ne_zero two_ne_zero (sub_ne_zero.mpr fun h => hne h.symm)
  rw [circle_core, if_neg h21, if_neg h32, if_neg hne, if_neg h2, if_pos hsa]

theorem circle_core_not_div (x1 y1 x2 y2 x3 y3 : ℚ) (o : ℚ × ℚ)
    (h21 : x2 - x1 ≠ 0) (h32 : x3 - x2 ≠ 0)
    (hdz : circle_core x1 y1 x2 y2 x3 y3 o = .divByZero) :
    y1 = y2 ∧ y3 ≠ y2 := by
  rw [circle_core, if_neg h21, if_neg h32] at hdz
  by_cases hne : (y2 - y1) / (x2 - x1) = (y3 - y2) / (x3 - x2)
  · rw [if_pos hne] at hdz; exact absurd hdz (by simp)
  · rw [if_neg hne] at hdz
    have h2 : 2 * ((y3 - y2) / (x3 - x2) - (y2 - y1) / (x2 - x1)) ≠ 0 :=
      mul_ne_zero two_ne_zero (sub_ne_zero.mpr fun h => hne h.symm)
    rw [if_neg h2] at hdz
    by_cases hsa : (y2 - y1) / (x2 - x1) = 0
    · have hy : y1 = y2 := by
        have := (div_eq_zero_iff.mp hsa).resolve_right h21
        linarith [this]
      refine ⟨hy, fun hy3 => hne ?_⟩
      rw [hsa, hy3, sub_self, zero_div]
    · rw [if_neg hsa] at hdz; exact absurd hdz (by simp)

theorem circle_core_ok (x1 y1 x2 y2 x3 y3 : ℚ) (o : ℚ × ℚ)
    (h21 : x2 - x1 ≠ 0) (h32 : x3 - x2 ≠ 0)
    (hncol : (y2 - y1) * (x3 - x2) ≠ (y3 - y2) * (x2 - x1))
    (hy : y2 - y1 ≠ 0) :
    ∃ c : ℚ × ℚ, circle_core x1 y1 x2 y2 x3 y3 o = .ok c (distSq c o) ∧
      distSq c (x1, y1) = distSq c (x2, y2) ∧ distSq c (x1, y1) = distSq c (x3, y3) := by
  have hne : (y2 - y1) / (x2 - x1) ≠ (y3 - y2) / (x3 - x2) := by
    rw [Ne, slope_eq_iff x1 y1 x2 y2 x3 y3 h21 h32]; exact hncol
  have h2 : 2 * ((y3 - y2) / (x3 - x2) - (y2 - y1) / (x2 - x1)) ≠ 0 :=
    mul_ne_zero two_ne_zero (sub_ne_zero.mpr fun h => hne h.symm)
  have hsa : (y2 - y1) / (x2 - x1) ≠ 0 := div_ne_zero hy h21
  rw [circle_core, if_neg h21, if_neg h32, if_neg hne, if_neg h2, if_neg hsa]
  set sa := (y2 - y1) / (x2 - x1) with hsadef
  set sb := (y3 - y2) / (x3 - x2) with hsbdef
  set xc := (sa * sb * (y1 - y3) + sb * (x1 + x2) - sa * (x2 + x3)) / (2 * (sb - sa))
    with hxcdef
  set yc := (-1 / sa) * (xc - (x1 + x2) / 2) + (y1 + y2) / 2 with hycdef
  refine ⟨(xc, yc), rfl, ?_, ?_⟩
  all_goals
    have hD : (y3 - y2) * (x2 - x1) - (y2 - y1) * (x3 - x2) ≠ 0 :=
      sub_ne_zero.mpr fun h => hncol h.symm
    have hyc3 : (y2 - y1) * yc + (x2 - x1) * xc
        = (x2 - x1) * ((x1 + x2) / 2) + (y2 - y1) * ((y1 + y2) / 2) := by
      rw [hycdef, hsadef]
      field_simp
      ring
  · simp only [distSq]
    linear_combination 2 * hyc3
  · have hsaB : sa * (x2 - x1) = y2 - y1 := by
      rw [hsadef]; exact div_mul_cancel₀ _ h21
    have hsbC : sb * (x3 - x2) = y3 - y2 := by
      rw [hsbdef]; exact div_mul_cancel₀ _ h32
    have hP : sa * sb * ((x2 - x1) * (x3 - x2)) = (y2 - y1) * (y3 - y2) := by
      calc sa * sb * ((x2 - x1) * (x3 - x2))
          = (sa * (x2 - x1)) * (sb * (x3 - x2)) := by ring
        _ = (y2 - y1) * (y3 - y2) := by rw [hsaB, hsbC]
    have hxcD : xc * (2 * (sb - sa))
        = sa * sb * (y1 - y3) + sb * (x1 + x2) - sa * (x2 + x3) := by
      rw [hxcdef]; exact div_mul_cancel₀ _ h2
    have hxc3 : 2 * xc * ((x2 - x1) * (y3 - y2) - (y2 - y1) * (x3 - x2))
        = (y2 - y1) * (y3 - y2) * (y1 - y3) + (x2 - x1) * (y3 - y2) * (x1 + x2)
          - (y2 - y1) * (x3 - x2) * (x2 + x3) := by
      linear_combination ((x2 - x1) * (x3 - x2)) * hxcD
        - ((x2 - x1) * (2 * xc - (x1 + x2))) * hsbC
        + ((x3 - x2) * (2 * xc - (x2 + x3))) * hsaB
        + (y1 - y3) * hP
    have hL23m : (y2 - y1) * (2 * (x3 - x2) * xc + 2 * (y3 - y2) * yc)
        = (y2 - y1) * ((x3 ^ 2 - x2 ^ 2) + (y3 ^ 2 - y2 ^ 2)) := by
      linear_combination 2 * (y3 - y2) * hyc3 - hxc3
    have L23 : 2 * (x3 - x2) * xc + 2 * (y3 - y2) * yc
        = (x3 ^ 2 - x2 ^ 2) + (y3 ^ 2 - y2 ^ 2) := mul_left_cancel₀ hy hL23m
    simp only [distSq]
    linear_combination 2 * hyc3 + L23

theorem allSameX_collinear (pt1 pt2 pt3 : ℚ × ℚ) (h : allSameX pt1 pt2 pt3) :
    collinear pt1 pt2 pt3 := by
  obtain ⟨h12, h13⟩ := h
  unfold collinear
  linear_combination (pt2.2 - pt1.2) * h13 - (pt3.2 - pt1.2) * h12

theorem gcc_dne_of_collinear (pt1 pt2 pt3 : ℚ × ℚ) (h : collinear pt1 pt2 pt3) :
    get_circle_center pt1 pt2 pt3 = .dne := by
  rw [get_circle_center]
  by_cases hall : pt1.1 = pt2.1 ∧ pt1.1 = pt3.1
  · rw [if_pos hall]
  · rw [if_neg hall]
    unfold collinear at h
    by_cases h12 : pt1.1 = pt2.1
    · have hr : reorder pt1 pt2 pt3 = (pt2, pt3, pt1) := by rw [reorder, if_pos h12]
      rw [hr]
      apply circle_core_dne
      · exact fun h0 => hall ⟨h12, h12.trans (sub_eq_zero.mp h0).symm⟩
      · exact fun h0 => hall ⟨h12, sub_eq_zero.mp h0⟩
      · linear_combination -h
    · by_cases h23 : pt2.1 = pt3.1
      · have hr : reorder pt1 pt2 pt3 = (pt3, pt1, pt2) := by
          rw [reorder, if_neg h12, if_pos h23]
        rw [hr]
        apply circle_core_dne
        · exact fun h0 => h12 ((sub_eq_zero.mp h0).trans h23.symm)
        · exact fun h0 => h12 (sub_eq_zero.mp h0).symm
        · linear_combination -h
      · have hr : reorder pt1 pt2 pt3 = (pt1, pt2, pt3) := by
          rw [reorder, if_neg h12, if_neg h23]
        rw [hr]
        apply circle_core_dne
        · exact fun h0 => h12 (sub_eq_zero.mp h0).symm
        · exact fun h0 => h23 (sub_eq_zero.mp h0).symm
        · linear_combination -h

theorem gcc_ok_of_not_collinear (pt1 pt2 pt3 : ℚ × ℚ) (h : ¬ collinear pt1 pt2 pt3)
    (hh : ¬ horizFirstChord pt1 pt2 pt3) :
    ∃ c : ℚ × ℚ, get_circle_center pt1 pt2 pt3 = .ok c (distSq c pt1) ∧
      distSq c pt1 = distSq c pt2 ∧ distSq c pt1 = distSq c pt3 := by
  have hall : ¬ (pt1.1 = pt2.1 ∧ pt1.1 = pt3.1) :=
    fun ha => h (allSameX_collinear pt1 pt2 pt3 ha)
  rw [get_circle_center, if_neg hall]
  unfold horizFirstChord at hh
  by_cases h12 : pt1.1 = pt2.1
  · have hr : reorder pt1 pt2 pt3 = (pt2, pt3, pt1) := by rw [reorder, if_pos h12]
    rw [hr] at hh ⊢
    obtain ⟨c, hok, e12, e13⟩ := circle_core_ok pt2.1 pt2.2 pt3.1 pt3.2 pt1.1 pt1.2 pt1
      (fun h0 => hall ⟨h12, h12.trans (sub_eq_zero.mp h0).symm⟩)
      (fun h0 => hall ⟨h12, sub_eq_zero.mp h0⟩)
      (fun he => h (by unfold collinear; linear_combination -he))
      (sub_ne_zero.mpr fun he => hh he.symm)
    exact ⟨c, hok, e13.symm, (e13.symm.trans e12)⟩
  · by_cases h23 : pt2.1 = pt3.1
    · have hr : reorder pt1 pt2 pt3 = (pt3, pt1, pt2) := by
        rw [reorder, if_neg h12, if_pos h23]
      rw [hr] at hh ⊢
      obtain ⟨c, hok, e12, e13⟩ := circle_core_ok pt3.1 pt3.2 pt1.1 pt1.2 pt2.1 pt2.2 pt1
        (fun h0 => h12 ((sub_eq_zero.mp h0).trans h23.symm))
        (fun h0 => h12 (sub_eq_zero.mp h0).symm)
        (fun he => h (by unfold collinear; linear_combination -he))
        (sub_ne_zero.mpr fun he => hh he.symm)
      exact ⟨c, hok, e12.symm.trans e13, e12.symm⟩
    · have hr : reorder pt1 pt2 pt3 = (pt1, pt2, pt3) := by
        rw [reorder, if_neg h12, if_neg h23]
      rw [hr] at hh ⊢
      obtain ⟨c, hok, e12, e13⟩ := circle_core_ok pt1.1 pt1.2 pt2.1 pt2.2 pt3.1 pt3.2 pt1
        (fun h0 => h12 (sub_eq_zero.mp h0).symm)
        (fun h0 => h23 (sub_eq_zero.mp h0).symm)
        (fun he => h (by unfold collinear; linear_combination -he))
        (sub_ne_zero.mpr fun he => hh he.symm)
      exact ⟨c, hok, e12, e13⟩

theorem pyint_nonneg (q : ℚ) (h : 0 ≤ q) : 0 ≤ pyint q := by
  rw [pyint, if_neg (not_lt.mpr h)]
  exact Int.floor_nonneg.mpr h

theorem shift_into_mem (lo hi a b : ℤ) (hfit : b - a ≤ hi - lo) :
    lo ≤ (shift_into lo hi a b).1 ∧ (shift_into lo hi a b).2 ≤ hi ∧
      (shift_into lo hi a b).2 - (shift_into lo hi a b).1 = b - a := by
  simp only [shift_into]
  by_cases h1 : a < lo
  · rw [if_pos h1, abs_of_neg (show a - lo < 0 by omega)]
    dsimp only
    by_cases h2 : hi < b + -(a - lo)
    · rw [if_pos h2, abs_of_neg (show hi - (b + -(a - lo)) < 0 by omega)]
      dsimp only
      omega
    · rw [if_neg h2]
      dsimp only
      omega
  · rw [if_neg h1]
    dsimp only
    by_cases h2 : hi < b
    · rw [if_pos h2, abs_of_neg (show hi - b < 0 by omega)]
      dsimp only
      omega
    · rw [if_neg h2]
      dsimp only
      omega

theorem new_window_width_nonneg (w_min w_max : ℤ) (h : w_min ≤ w_max) :
    0 ≤ new_window_width w_min w_max := by
  apply pyint_nonneg
  apply div_nonneg
  · rw [sub_nonneg]; exact_mod_cast h
  · norm_num [zoom_scale]

theorem new_window_height_nonneg (w_min w_max : ℤ) (h : w_min ≤ w_max) :
    0 ≤ new_window_height w_min w_max := by
  apply pyint_nonneg
  apply div_nonneg
  · apply mul_nonneg
    · norm_num [screen_max_h]
    · exact_mod_cast new_window_width_nonneg w_min w_max h
  · norm_num [screen_max_w]

/-- Claim C4, amended: when the derived zoom-window dimensions fit inside
the current viewport on each axis, the translated window produced by
`calc_new_view` lies inside the current viewport (hence inside the
source image whenever the viewport does), with its dimensions unchanged
by the translation.  When the aspect-derived window height exceeds the
current viewport height, the two sequential shifts can instead push
`h_min` below `0` (see the counterexample). -/
theorem c4_viewport_amended (h_min h_max w_min w_max res_h res_w click_h click_w H W : ℤ)
    (hW : w_min ≤ w_max)
    (hfith : new_window_height w_min w_max ≤ h_max - h_min)
    (hfitw : new_window_width w_min w_max ≤ w_max - w_min)
    (hh0 : 0 ≤ h_min) (hhH : h_max ≤ H) (hw0 : 0 ≤ w_min) (hwW : w_max ≤ W) :
    ∀ nh1 nh2 nw1 nw2 : ℤ,
      calc_new_view h_min h_max w_min w_max res_h res_w click_h click_w = (nh1, nh2, nw1, nw2) →
      (0 ≤ nh1 ∧ nh2 ≤ H ∧ 0 ≤ nw1 ∧ nw2 ≤ W) ∧
      (h_min ≤ nh1 ∧ nh2 ≤ h_max ∧ w_min ≤ nw1 ∧ nw2 ≤ w_max) ∧
      nh2 - nh1 = 2 * ((new_window_height w_min w_max).fdiv 2) ∧
      nw2 - nw1 = 2 * ((new_window_width w_min w_max).fdiv 2) := by
  intro nh1 nh2 nw1 nw2 heq
  have hnww0 := new_window_width_nonneg w_min w_max hW
  have hnwh0 := new_window_height_nonneg w_min w_max hW
  have ew : (new_window_width w_min w_max).fdiv 2 = new_window_width w_min w_max / 2 :=
    Int.fdiv_eq_ediv _ (by norm_num)
  have eh : (new_window_height w_min w_max).fdiv 2 = new_window_height w_min w_max / 2 :=
    Int.fdiv_eq_ediv _ (by norm_num)
  simp only [calc_new_view, Prod.mk.injEq] at heq
  obtain ⟨e1, e2, e3, e4⟩ := heq
  subst e1 e2 e3 e4
  set och := h_min + pyint (((click_h : ℚ) / (res_h : ℚ)) * ((h_max : ℚ) - (h_min : ℚ)))
  set ocw := w_min + pyint (((click_w : ℚ) / (res_w : ℚ)) * ((w_max : ℚ) - (w_min : ℚ)))
  have mh := shift_into_mem h_min h_max
    (och - (new_window_height w_min w_max).fdiv 2)
    (och + (new_window_height w_min w_max).fdiv 2) (by omega)
  have mw := shift_into_mem w_min w_max
    (ocw - (new_window_width w_min w_max).fdiv 2)
    (ocw + (new_window_width w_min w_max).fdiv 2) (by omega)
  refine ⟨⟨?_, ?_, ?_, ?_⟩, ⟨?_, ?_, ?_, ?_⟩, ?_, ?_⟩ <;> omega

theorem nww_0_1400 : new_window_width 0 1400 = 1076 := by
  rw [new_window_width, zoom_scale, pyint, if_neg (by norm_num)]
  rw [Int.floor_eq_iff]
  norm_num

theorem nwh_0_1400 : new_window_height 0 1400 = 614 := by
  rw [new_window_height, nww_0_1400, screen_max_h, screen_max_w, pyint, if_neg (by norm_num)]
  rw [Int.floor_eq_iff]
  norm_num

theorem res_wide : make_new_view_res 0 100 0 1400 = (100, 1400) := by
  rw [make_new_view_res]
  norm_num [screen_max_w, screen_max_h, pyround, Int.floor_eq_iff]

/-- Claim C4, counterexample: a 100-pixel-tall, 1400-pixel-wide source
image is shown in full (viewport `(0,100,0,1400)`, displayed at
resolution 100x1400), and the user zooms in at display coordinates
`(x,y) = (700,50)`.  The aspect-derived window height 614 exceeds the
viewport height 100, and the two translation steps leave
`h_min = -514 < 0`: the resulting viewport is NOT a subset of
`[0,height) x [0,width)`. -/
theorem c4_counterexample :
    zoom_step 0 100 0 1400 700 50 = (-514, 100, 162, 1238) ∧ (-514 : ℤ) < 0 := by
  refine ⟨?_, by norm_num⟩
  rw [zoom_step, res_wide]
  rw [calc_new_view, nww_0_1400, nwh_0_1400]
  have e1 : pyint (((50 : ℤ) : ℚ) / ((100 : ℤ) : ℚ) * (((100 : ℤ) : ℚ) - ((0 : ℤ) : ℚ)))
      = 50 := by
    rw [pyint, if_neg (by norm_num)]
    norm_num
  have e2 : pyint (((700 : ℤ) : ℚ) / ((1400 : ℤ) : ℚ) * (((1400 : ℤ) : ℚ) - ((0 : ℤ) : ℚ)))
      = 700 := by
    rw [pyint, if_neg (by norm_num)]
    norm_num
  rw [e1, e2]
  have f1 : (614 : ℤ).fdiv 2 = 307 := by decide
  have f2 : (1076 : ℤ).fdiv 2 = 538 := by decide
  rw [f1, f2]
  norm_num [shift_into]

/-- Claim C4, witness: on a 1000x1400 image shown in full at display
resolution 800x1120, a zoom click at display `(x,y) = (560,400)` derives
a 614-tall, 1076-wide window that fits, and the amended theorem places
the result inside the viewport with its dimensions intact. -/
theorem c4_witness :
    ((0 : ℤ) ≤ 193 ∧ (807 : ℤ) ≤ 1000 ∧ (0 : ℤ) ≤ 162 ∧ (1238 : ℤ) ≤ 1400) ∧
    ((0 : ℤ) ≤ 193 ∧ (807 : ℤ) ≤ 1000 ∧ (0 : ℤ) ≤ 162 ∧ (1238 : ℤ) ≤ 1400) ∧
    (807 - 193 : ℤ) = 2 * ((new_window_height 0 1400).fdiv 2) ∧
    (1238 - 162 : ℤ) = 2 * ((new_window_width 0 1400).fdiv 2) := by
  apply c4_viewport_amended 0 1000 0 1400 800 1120 400 560 1000 1400
    (by norm_num) (by rw [nwh_0_1400]; norm_num) (by rw [nww_0_1400]; norm_num)
    (by norm_num) (by norm_num) (by norm_num) (by norm_num) 193 807 162 1238
  rw [calc_new_view, nww_0_1400, nwh_0_1400]
  have e1 : pyint (((400 : ℤ) : ℚ) / ((800 : ℤ) : ℚ) * (((1000 : ℤ) : ℚ) - ((0 : ℤ) : ℚ)))
      = 500 := by
    rw [pyint, if_neg (by norm_num)]
    norm_num
  have e2 : pyint (((560 : ℤ) : ℚ) / ((1120 : ℤ) : ℚ) * (((1400 : ℤ) : ℚ) - ((0 : ℤ) : ℚ)))
      = 700 := by
    rw [pyint, if_neg (by norm_num)]
    norm_num
  rw [e1, e2]
  have f1 : (614 : ℤ).fdiv 2 = 307 := by decide
  have f2 : (1076 : ℤ).fdiv 2 = 538 := by decide
  rw [f1, f2]
  norm_num [shift_into]

theorem reorder_denoms (pt1 pt2 pt3 : ℚ × ℚ) (hall : ¬ (pt1.1 = pt2.1 ∧ pt1.1 = pt3.1)) :
    (reorder pt1 pt2 pt3).2.1.1 - (reorder pt1 pt2 pt3).1.1 ≠ 0 ∧
    (reorder pt1 pt2 pt3).2.2.1 - (reorder pt1 pt2 pt3).2.1.1 ≠ 0 := by
  by_cases h12 : pt1.1 = pt2.1
  · rw [reorder, if_pos h12]
    exact ⟨fun h0 => hall ⟨h12, h12.trans (sub_eq_zero.mp h0).symm⟩,
      fun h0 => hall ⟨h12, sub_eq_zero.mp h0⟩⟩
  · by_cases h23 : pt2.1 = pt3.1
    · rw [reorder, if_neg h12, if_pos h23]
      exact ⟨fun h0 => h12 ((sub_eq_zero.mp h0).trans h23.symm),
        fun h0 => h12 (sub_eq_zero.mp h0).symm⟩
    · rw [reorder, if_neg h12, if_neg h23]
      exact ⟨fun h0 => h12 (sub_eq_zero.mp h0).symm,
        fun h0 => h23 (sub_eq_zero.mp h0).symm⟩

/-- Claim C1, counterexample: the three non-collinear points `(0,0)`,
`(4,0)`, `(1,3)` make `get_circle_center` perform the division `-1/slope_a`
with `slope_a = 0` (the first chord is horizontal), so the call raises a
`ZeroDivisionError` instead of returning a circle or `Degenerate`: the
claim that every division is guarded is false. -/
theorem c1_counterexample :
    get_circle_center ((0 : ℚ), (0 : ℚ)) (4, 0) (1, 3) = .divByZero := by
  norm_num [get_circle_center, circle_core, reorder]

/-- Claim C1, amended: the reordering and the equal-slope guard keep the
denominators of the two chord-slope divisions and of the `x_center`
division non-zero, but the perpendicular-slope division `-1/slope_a` is
unguarded.  A call yields a division error exactly when the three points
do not all share one x-coordinate, the reordered first chord is
horizontal, and the third reordered point lies off that horizontal line;
in every other case the call returns a center/radius pair or the
`Degenerate` sentinel. -/
theorem c1_division_guard_amended (pt1 pt2 pt3 : ℚ × ℚ) :
    get_circle_center pt1 pt2 pt3 = .divByZero ↔
      (¬ allSameX pt1 pt2 pt3 ∧ horizFirstChord pt1 pt2 pt3 ∧
        (reorder pt1 pt2 pt3).2.2.2 ≠ (reorder pt1 pt2 pt3).2.1.2) := by
  by_cases hall : pt1.1 = pt2.1 ∧ pt1.1 = pt3.1
  · rw [get_circle_center, if_pos hall]
    constructor
    · intro h; exact absurd h (by simp)
    · rintro ⟨hna, -, -⟩; exact absurd hall hna
  · obtain ⟨hd1, hd2⟩ := reorder_denoms pt1 pt2 pt3 hall
    rw [get_circle_center, if_neg hall]
    constructor
    · intro hdz
      obtain ⟨hy, hy3⟩ := circle_core_not_div _ _ _ _ _ _ _ hd1 hd2 hdz
      exact ⟨hall, hy, hy3⟩
    · rintro ⟨-, hy, hy3⟩
      exact circle_core_divByZero _ _ _ _ _ _ _ hd1 hd2 hy hy3

/-- Claim C1, witness: at `(5,1)`, `(7,1)`, `(6,4)` the amended
characterization applies — the first chord is horizontal and the call
raises a division error. -/
theorem c1_witness :
    get_circle_center ((5 : ℚ), (1 : ℚ)) (7, 1) (6, 4) = .divByZero :=
  (c1_division_guard_amended ((5 : ℚ), (1 : ℚ)) (7, 1) (6, 4)).mpr
    ⟨by norm_num [allSameX], by norm_num [horizFirstChord, reorder],
      by norm_num [reorder]⟩

/-- Claim C7, counterexample: `(0,0)`, `(2,0)`, `(1,1)` are not collinear,
yet `get_circle_center` does not return a center equidistant from them —
it raises a division error (horizontal first chord), refuting the claim
that every non-collinear triple yields a center and radius. -/
theorem c7_counterexample :
    ¬ collinear ((0 : ℚ), (0 : ℚ)) (2, 0) (1, 1) ∧
      get_circle_center ((0 : ℚ), (0 : ℚ)) (2, 0) (1, 1) = .divByZero := by
  constructor
  · norm_num [collinear]
  · norm_num [get_circle_center, circle_core, reorder]

/-- Claim C7, amended: for any collinear triple (including a vertical
triple) `get_circle_center` returns the `Degenerate` sentinel; for any
non-collinear triple whose reordered first chord is NOT horizontal it
returns a center whose squared distance to each of the three input points
equals the returned squared radius.  (A non-collinear triple with a
horizontal reordered first chord instead raises a division error.) -/
theorem c7_circumcircle_amended (pt1 pt2 pt3 : ℚ × ℚ) :
    (collinear pt1 pt2 pt3 → get_circle_center pt1 pt2 pt3 = .dne) ∧
    (¬ collinear pt1 pt2 pt3 → ¬ horizFirstChord pt1 pt2 pt3 →
      ∃ c rsq, get_circle_center pt1 pt2 pt3 = .ok c rsq ∧
        distSq c pt1 = rsq ∧ distSq c pt2 = rsq ∧ distSq c pt3 = rsq) := by
  refine ⟨gcc_dne_of_collinear pt1 pt2 pt3, fun h hh => ?_⟩
  obtain ⟨c, hok, e2, e3⟩ := gcc_ok_of_not_collinear pt1 pt2 pt3 h hh
  exact ⟨c, distSq c pt1, hok, rfl, e2.symm, e3.symm⟩

/-- Claim C7, witness: the amended theorem applied to the vertical
collinear triple `(0,0),(0,1),(0,2)` (giving `Degenerate`) and to the
non-collinear triple `(0,0),(1,2),(3,1)` (giving an equidistant center). -/
theorem c7_witness :
    get_circle_center ((0 : ℚ), (0 : ℚ)) (0, 1) (0, 2) = .dne ∧
    ∃ c rsq, get_circle_center ((0 : ℚ), (0 : ℚ)) (1, 2) (3, 1) = .ok c rsq ∧
      distSq c ((0 : ℚ), (0 : ℚ)) = rsq ∧ distSq c (1, 2) = rsq ∧ distSq c (3, 1) = rsq := by
  constructor
  · exact (c7_circumcircle_amended ((0 : ℚ), (0 : ℚ)) (0, 1) (0, 2)).1 (by norm_num [collinear])
  · exact (c7_circumcircle_amended ((0 : ℚ), (0 : ℚ)) (1, 2) (3, 1)).2
      (by norm_num [collinear]) (by norm_num [horizFirstChord, reorder])

/-- Claim C5, counterexample: in scale-bar mode both endpoints are
recorded after two clicks (`sb_ends` stays at 2 because the second
branch never advances the counter), and a THIRD left-click overwrites
the stored second endpoint — additional clicks in a completed ScaleBar
mode do NOT leave the session state unchanged. -/
theorem c5_counterexample :
    (left_click (left_click (key_press (init_session 100 100) .keyS) 10 20)
        30 40).image_data.p_scale_bar_1 = some (10, 20) ∧
    (left_click (left_click (key_press (init_session 100 100) .keyS) 10 20)
        30 40).image_data.p_scale_bar_2 = some (30, 40) ∧
    (left_click (left_click (left_click (key_press (init_session 100 100) .keyS) 10 20)
        30 40) 7 8).image_data.p_scale_bar_2 = some (7, 8) ∧
    (left_click (left_click (left_click (key_press (init_session 100 100) .keyS) 10 20)
        30 40) 7 8).image_data.p_scale_bar_2 ≠
      (left_click (left_click (key_press (init_session 100 100) .keyS) 10 20)
        30 40).image_data.p_scale_bar_2 := by
  have s1 : key_press (init_session 100 100) .keyS
      = ⟨-1, -1, 0, 0, .scaleBar, 1, 1, 0, 100, 0, 100, 100, 100, {}, false⟩ := rfl
  have s2 : left_click (⟨-1, -1, 0, 0, .scaleBar, 1, 1, 0, 100, 0, 100, 100, 100, {},
        false⟩ : Session) 10 20
      = ⟨10, 20, 0, 0, .scaleBar, 1, 2, 0, 100, 0, 100, 100, 100,
        { p_scale_bar_1 := some (10, 20) }, false⟩ := by
    simp [left_click]
    norm_num [pyint, Int.floor_eq_iff]
  have s3 : left_click (⟨10, 20, 0, 0, .scaleBar, 1, 2, 0, 100, 0, 100, 100, 100,
        { p_scale_bar_1 := some (10, 20) }, false⟩ : Session) 30 40
      = ⟨30, 40, 0, 0, .scaleBar, 1, 2, 0, 100, 0, 100, 100, 100,
        { p_scale_bar_1 := some (10, 20), p_scale_bar_2 := some (30, 40) }, false⟩ := by
    simp [left_click]
    norm_num [pyint, Int.floor_eq_iff]
  have s4 : left_click (⟨30, 40, 0, 0, .scaleBar, 1, 2, 0, 100, 0, 100, 100, 100,
        { p_scale_bar_1 := some (10, 20), p_scale_bar_2 := some (30, 40) },
        false⟩ : Session) 7 8
      = ⟨7, 8, 0, 0, .scaleBar, 1, 2, 0, 100, 0, 100, 100, 100,
        { p_scale_bar_1 := some (10, 20), p_scale_bar_2 := some (7, 8) }, false⟩ := by
    simp [left_click]
    norm_num [pyint, Int.floor_eq_iff]
  rw [s1, s2, s3, s4]
  norm_num

/-- Claim C5, amended: in FourPoint mode once the click counter has
passed 4, and in EightPoint mode once it has passed 8, a further
left-click leaves the landmark record and both click counters unchanged
(only the previous-click coordinates `px, py` are updated); in ScaleBar
mode, by contrast, every click after the first keeps overwriting the
second endpoint, so the claim fails there (see the counterexample). -/
theorem c5_repeat_clicks_amended (s : Session) (x y : ℤ)
    (h : (s.mode = .pts4 ∧ 5 ≤ s.points) ∨ (s.mode = .pts8 ∧ 9 ≤ s.points)) :
    (left_click s x y).image_data = s.image_data ∧
    (left_click s x y).points = s.points ∧
    (left_click s x y).sb_ends = s.sb_ends := by
  obtain ⟨hm, hp⟩ | ⟨hm, hp⟩ := h
  · have n1 : ¬ s.points = 1 := by omega
    have n2 : ¬ s.points = 2 := by omega
    have n3 : ¬ s.points = 3 := by omega
    have n4 : ¬ s.points = 4 := by omega
    simp [left_click, hm, n1, n2, n3, n4]
  · have n1 : ¬ s.points = 1 := by omega
    have n2 : ¬ s.points = 2 := by omega
    have n3 : ¬ s.points = 3 := by omega
    have n4 : ¬ s.points = 4 := by omega
    have n5 : ¬ s.points = 5 := by omega
    have n6 : ¬ s.points = 6 := by omega
    have n7 : ¬ s.points = 7 := by omega
    have n8 : ¬ s.points = 8 := by omega
    simp [left_click, hm, n1, n2, n3, n4, n5, n6, n7, n8]

/-- Claim C5, witness: a FourPoint session whose counter has reached 5
(all four points collected) absorbs one more click with no change to the
landmark record or the counters. -/
theorem c5_witness :
    (left_click (⟨1, 1, 0, 0, .pts4, 5, 1, 0, 10, 0, 10, 10, 10, {}, false⟩ : Session)
        3 3).image_data
      = (⟨1, 1, 0, 0, .pts4, 5, 1, 0, 10, 0, 10, 10, 10, {}, false⟩ : Session).image_data ∧
    (left_click (⟨1, 1, 0, 0, .pts4, 5, 1, 0, 10, 0, 10, 10, 10, {}, false⟩ : Session)
        3 3).points
      = (⟨1, 1, 0, 0, .pts4, 5, 1, 0, 10, 0, 10, 10, 10, {}, false⟩ : Session).points ∧
    (left_click (⟨1, 1, 0, 0, .pts4, 5, 1, 0, 10, 0, 10, 10, 10, {}, false⟩ : Session)
        3 3).sb_ends
      = (⟨1, 1, 0, 0, .pts4, 5, 1, 0, 10, 0, 10, 10, 10, {}, false⟩ : Session).sb_ends :=
  c5_repeat_clicks_amended
    (⟨1, 1, 0, 0, .pts4, 5, 1, 0, 10, 0, 10, 10, 10, {}, false⟩ : Session) 3 3
    (Or.inl ⟨rfl, by norm_num⟩)

/-- Claim C6, counterexample: after one point is recorded in EightPoint
mode, pressing the `8` key again resets the click counter but leaves the
previously recorded landmark in the accumulating record (it is only
overwritten later, click by click); and pressing `s` after a completed
scale bar does not reset `sb_ends` to 1, nor does it discard the
scale-bar landmarks.  Both refute the claim that the mode keystroke
discards the mode's landmarks. -/
theorem c6_counterexample :
    (key_press (left_click (key_press (init_session 200 200) .key8) 3 4) .key8).points
        = 1 ∧
    (key_press (left_click (key_press (init_session 200 200) .key8) 3 4)
        .key8).image_data.p_length_1 = some (3, 4) ∧
    (key_press (left_click (left_click (key_press (init_session 200 200) .keyS) 1 2)
        5 6) .keyS).sb_ends = 2 ∧
    (key_press (left_click (left_click (key_press (init_session 200 200) .keyS) 1 2)
        5 6) .keyS).image_data.p_scale_bar_1 = some (1, 2) ∧
    (key_press (left_click (left_click (key_press (init_session 200 200) .keyS) 1 2)
        5 6) .keyS).image_data.p_scale_bar_2 = some (5, 6) := by
  have k1 : key_press (init_session 200 200) .key8
      = ⟨-1, -1, 0, 0, .pts8, 1, 1, 0, 200, 0, 200, 200, 200, {}, false⟩ := rfl
  have k2 : left_click (⟨-1, -1, 0, 0, .pts8, 1, 1, 0, 200, 0, 200, 200, 200, {},
        false⟩ : Session) 3 4
      = ⟨3, 4, 0, 0, .pts8, 2, 1, 0, 200, 0, 200, 200, 200,
        { p_length_1 := some (3, 4) }, false⟩ := by
    simp [left_click]
    norm_num [pyint, Int.floor_eq_iff]
  have k3 : key_press (init_session 200 200) .keyS
      = ⟨-1, -1, 0, 0, .scaleBar, 1, 1, 0, 200, 0, 200, 200, 200, {}, false⟩ := rfl
  have k4 : left_click (⟨-1, -1, 0, 0, .scaleBar, 1, 1, 0, 200, 0, 200, 200, 200, {},
        false⟩ : Session) 1 2
      = ⟨1, 2, 0, 0, .scaleBar, 1, 2, 0, 200, 0, 200, 200, 200,
        { p_scale_bar_1 := some (1, 2) }, false⟩ := by
    simp [left_click]
    norm_num [pyint, Int.floor_eq_iff]
  have k5 : left_click (⟨1, 2, 0, 0, .scaleBar, 1, 2, 0, 200, 0, 200, 200, 200,
        { p_scale_bar_1 := some (1, 2) }, false⟩ : Session) 5 6
      = ⟨5, 6, 0, 0, .scaleBar, 1, 2, 0, 200, 0, 200, 200, 200,
        { p_scale_bar_1 := some (1, 2), p_scale_bar_2 := some (5, 6) }, false⟩ := by
    simp [left_click]
    norm_num [pyint, Int.floor_eq_iff]
  rw [k1, k2, k3, k4, k5]
  norm_num [key_press]

/-- Claim C6, amended: the `8` and `4` keystrokes set the mode and reset
the `points` counter to 1, and the `s` keystroke sets scale-bar mode;
none of the three discards any landmark from the accumulating record
(previously recorded landmarks remain until overwritten by new clicks),
and the `s` keystroke does not reset the `sb_ends` counter. -/
theorem c6_mode_keys_amended (s : Session) :
    (key_press s .key8).mode = .pts8 ∧ (key_press s .key8).points = 1 ∧
    (key_press s .key8).image_data = s.image_data ∧
    (key_press s .key4).mode = .pts4 ∧ (key_press s .key4).points = 1 ∧
    (key_press s .key4).image_data = s.image_data ∧
    (key_press s .keyS).mode = .scaleBar ∧
    (key_press s .keyS).sb_ends = s.sb_ends ∧
    (key_press s .keyS).image_data = s.image_data :=
  ⟨rfl, rfl, rfl, rfl, rfl, rfl, rfl, rfl, rfl⟩

theorem distPx_eval (a b : ℤ × ℤ) (n : ℚ) (hn : 0 ≤ n)
    (h : distSq (qpt a) (qpt b) = n ^ 2) : distPx a b = ((n : ℚ) : ℝ) := by
  rw [distPx, distance, h]
  push_cast
  exact Real.sqrt_sq (by exact_mod_cast hn)

theorem distPx_l : distPx (0, 0) (100, 0) = ((100 : ℚ) : ℝ) :=
  distPx_eval (0, 0) (100, 0) 100 (by norm_num) (by norm_num [distSq, qpt])

theorem distPx_w : distPx (50, -10) (50, 10) = ((20 : ℚ) : ℝ) :=
  distPx_eval (50, -10) (50, 10) 20 (by norm_num) (by norm_num [distSq, qpt])

theorem distPx_sb : distPx (0, 0) (0, 50) = ((50 : ℚ) : ℝ) :=
  distPx_eval (0, 0) (0, 50) 50 (by norm_num) (by norm_num [distSq, qpt])

theorem distPx_l0 : distPx 0 (100, 0) = ((100 : ℚ) : ℝ) :=
  distPx_eval 0 (100, 0) 100 (by norm_num) (by norm_num [distSq, qpt])

theorem distPx_sb0 : distPx 0 (0, 50) = ((50 : ℚ) : ℝ) :=
  distPx_eval 0 (0, 50) 50 (by norm_num) (by norm_num [distSq, qpt])

/-- Claim C8: the FourPoint scenario poleA=(0,0), poleB=(100,0),
midA=(50,-10), midB=(50,10) (counter at 5) yields pixel length 100,
pixel width 20 and status `relative`; adding scale-bar endpoints
(0,0)-(0,50) with a reported length of 5 millimeters yields
mmPerPixel = 0.1, calibrated length 10 mm, width 2 mm and status
`absolute`. -/
theorem c8_scenario :
    (∃ fo, finalize (⟨none, none, none, none, some (0, 0), some (100, 0),
        some (50, -10), some (50, 10), none, none, none, none, none, none, none,
        none, none⟩ : ClickData) 5 .m 0 = some fo ∧
      fo.status = some "relative" ∧
      fo.length_straight_px = some 100 ∧
      fo.width_px = some 20) ∧
    (∃ fo, finalize (⟨none, none, none, none, some (0, 0), some (100, 0),
        some (50, -10), some (50, 10), none, none, none, none, none, none, none,
        some (0, 0), some (0, 50)⟩ : ClickData) 5 .m 5 = some fo ∧
      fo.mm_per_px = some (1 / 10) ∧
      fo.length_straight = some 10 ∧
      fo.width = some 2 ∧
      fo.status = some "absolute") := by
  constructor
  · refine ⟨_, rfl, ?_, ?_, ?_⟩ <;>
      simp [finalize, absolute_block, distPx_l, distPx_w, distPx_l0]
  · refine ⟨_, rfl, ?_, ?_, ?_, ?_⟩ <;>
      simp [finalize, absolute_block, distPx_l, distPx_w, distPx_sb, distPx_l0,
        distPx_sb0] <;> norm_num

theorem lookupD_setKey_self (dd : Dict) (k : String) (v : Val) :
    lookupD (setKey dd k v) k = some v := by
  induction dd with
  | nil => simp [setKey, lookupD]
  | cons hd tl ih =>
    obtain ⟨k1, v1⟩ := hd
    by_cases h : k = k1
    · simp [setKey, if_pos h, lookupD]
    · simp only [setKey, if_neg h, lookupD, if_neg h]
      exact ih

theorem lookupD_setKey_ne (dd : Dict) (k k1 : String) (v : Val) (h : k ≠ k1) :
    lookupD (setKey dd k1 v) k = lookupD dd k := by
  induction dd with
  | nil => simp [setKey, lookupD, if_neg h]
  | cons hd tl ih =>
    obtain ⟨k2, v2⟩ := hd
    by_cases h2 : k1 = k2
    · subst h2
      simp only [setKey, if_pos rfl, lookupD, if_neg h]
    · simp only [setKey, if_neg h2, lookupD]
      by_cases h3 : k = k2
      · simp only [if_pos h3]
      · simp only [if_neg h3]
        exact ih

theorem lookupD_update_not_mem (dd u : Dict) (k : String)
    (h : ∀ p ∈ u, p.1 ≠ k) : lookupD (updateDict dd u) k = lookupD dd k := by
  induction u generalizing dd with
  | nil => rfl
  | cons hd tl ih =>
    have step : updateDict dd (hd :: tl) = updateDict (setKey dd hd.1 hd.2) tl := rfl
    rw [step, ih (setKey dd hd.1 hd.2) (fun p hp => h p (List.mem_cons_of_mem hd hp)),
      lookupD_setKey_ne dd k hd.1 hd.2 (fun he => h hd (List.mem_cons_self hd tl) he.symm)]

/-- Claim C10: a session whose image opened but in which nothing was ever
recorded (empty click data, counter still 1) returns the dictionary
`{'im_status': 'none'}` — a status outside the specified set
{box, relative, absolute, missing} — and after that dictionary is merged
into a record, the record fails the `im_status`-absent-or-'missing'
eligibility test of `main`, so the entry is never offered for annotation
again. -/
theorem c10_none_status_resolved (units : SBUnits) (reported : ℚ)
    (qa qb qc qd : String) (mg : Option ℚ) (confirm : Bool) (rec : Dict) :
    process_result ({} : ClickData) 1 units reported qa qb qc qd mg confirm
      = some [("im_status", Val.s "none")] ∧
    status_eligible (updateDict rec [("im_status", Val.s "none")]) = false ∧
    ("none" : String) ∉ ["box", "relative", "absolute", "missing"] := by
  refine ⟨rfl, ?_, by decide⟩
  have step : updateDict rec [("im_status", Val.s "none")]
      = setKey rec "im_status" (Val.s "none") := rfl
  rw [status_eligible, step, lookupD_setKey_self]
  decide

theorem outPairs_keys_im (d : ClickData) (fo : FinalOut) :
    ∀ p ∈ outPairs d fo, isImKey p.1 = true := by
  intro p hp
  fin_cases hp <;> rfl

theorem outDict_keys (d : ClickData) (fo : FinalOut) :
    ∀ p ∈ outDict d fo, isImKey p.1 = true := by
  intro p hp
  simp only [outDict, List.mem_filterMap] at hp
  obtain ⟨a, ha, hmap⟩ := hp
  obtain ⟨v, hv2, hpv⟩ := Option.map_eq_some'.mp hmap
  subst hpv
  exact outPairs_keys_im d fo a ha

/-- Claim C9: every key the annotation session result can contain starts
with the image-measurement prefix `im_`, so merging the result into a
record with `dict.update` leaves the value of every key without that
prefix (bibliographic and taxonomic fields) unchanged. -/
theorem c9_merge_only_im_fields (d : ClickData) (points : ℤ) (units : SBUnits)
    (reported : ℚ) (qa qb qc qd : String) (mg : Option ℚ) (confirm : Bool)
    (rec out : Dict) (k : String)
    (hout : process_result d points units reported qa qb qc qd mg confirm = some out)
    (hk : isImKey k = false) :
    (∀ p ∈ out, isImKey p.1 = true) ∧
    lookupD (updateDict rec out) k = lookupD rec k := by
  have hkeys : ∀ p ∈ out, isImKey p.1 = true := by
    rw [process_result] at hout
    split at hout
    · exact absurd hout (by simp)
    · split at hout
      · obtain rfl := Option.some.inj hout
        intro p hp
        simp only [List.mem_singleton] at hp
        subst hp
        decide
      · split at hout
        · obtain rfl := Option.some.inj hout
          exact outDict_keys _ _
        · obtain rfl := Option.some.inj hout
          intro p hp
          exact absurd hp (List.not_mem_nil p)
  refine ⟨hkeys, lookupD_update_not_mem rec out k (fun p hp heq => ?_)⟩
  have h1 := hkeys p hp
  rw [heq, hk] at h1
  exact Bool.noConfusion h1

/-- Claim C9, witness: merging the `{'im_status': 'none'}` result of an
empty session into a record with a bibliographic key `b` leaves the
value of `b` unchanged. -/
theorem c9_witness :
    (∀ p ∈ ([("im_status", Val.s "none")] : Dict), isImKey p.1 = true) ∧
    lookupD (updateDict [("b", Val.s "x")] [("im_status", Val.s "none")]) "b"
      = lookupD [("b", Val.s "x")] "b" :=
  c9_merge_only_im_fields ({} : ClickData) 1 .m 0 "s" "y" "n" "n" none true
    [("b", Val.s "x")] [("im_status", Val.s "none")] "b" rfl (by decide)

/-- Claim C2, amended: in an eight-point session whose circumcircle fit
succeeded, the stored curvature angle is `eggCurv`: the inverse cosine of
the dot product of the two radius vectors divided by the squared radius,
corrected — when the egg-middle landmark lies farther from the
straight-line midpoint of the poles than the radius — by subtraction
from `2 * 3.1415` (the source's two-pi approximation, NOT `2 * pi`); the
curved pixel length is that angle times the radius, and a `Degenerate`
fit stores zero for both curvature values. -/
theorem c2_curvature_amended (d : ClickData) (units : SBUnits) (reported : ℚ)
    (l1 l2 m1 m2 q11 q12 q31 q32 em : ℤ × ℤ)
    (h1 : d.p_length_1 = some l1) (h2 : d.p_length_2 = some l2)
    (h3 : d.p_midpoint_1 = some m1) (h4 : d.p_midpoint_2 = some m2)
    (hq1 : d.p_1st_quart_1 = some q11) (hq2 : d.p_1st_quart_2 = some q12)
    (hq3 : d.p_3rd_quart_1 = some q31) (hq4 : d.p_3rd_quart_2 = some q32)
    (hem : d.p_egg_middle = some em) :
    (∀ rsq c, d.radius_sq = some (some rsq) → d.p_circle_center = some (some c) →
      ∃ fo, finalize d 9 units reported = some fo ∧
        fo.curvature_rad = some (eggCurv l1 l2 c rsq em) ∧
        fo.curvature_deg = some (eggCurv l1 l2 c rsq em * 180 / (3.1415 : ℝ)) ∧
        fo.length_curved_px
          = some (eggCurv l1 l2 c rsq em * Real.sqrt ((rsq : ℚ) : ℝ))) ∧
    (d.radius_sq = some none →
      ∃ fo, finalize d 9 units reported = some fo ∧
        fo.curvature_rad = some 0 ∧ fo.curvature_deg = some 0) := by
  constructor
  · intro rsq c hr hc
    rcases hb : d.box_h1 with _ | bh1 <;>
      rcases hsb1 : d.p_scale_bar_1 with _ | sb1 <;>
        rcases hsb2 : d.p_scale_bar_2 with _ | sb2 <;>
          simp [finalize, absolute_block, h1, h2, h3, h4, hq1, hq2, hq3, hq4, hem,
            hr, hc, hb, hsb1, hsb2]
  · intro hr
    rcases hb : d.box_h1 with _ | bh1 <;>
      rcases hsb1 : d.p_scale_bar_1 with _ | sb1 <;>
        rcases hsb2 : d.p_scale_bar_2 with _ | sb2 <;>
          simp [finalize, absolute_block, h1, h2, h3, h4, hq1, hq2, hq3, hq4, hem,
            hr, hb, hsb1, hsb2]

theorem sqrt_169_36 : Real.sqrt (((169 / 36 : ℚ)) : ℝ) = 13 / 6 := by
  rw [show (((169 / 36 : ℚ)) : ℝ) = (13 / 6 : ℝ) ^ 2 by norm_num]
  exact Real.sqrt_sq (by norm_num)

theorem distPx_em_chordmid : distPx (2, 3) (midpoint (0, 0) (4, 0)) = ((3 : ℚ) : ℝ) := by
  rw [show midpoint (0, 0) (4, 0) = ((2 : ℤ), (0 : ℤ)) from rfl]
  exact distPx_eval (2, 3) (2, 0) 3 (by norm_num) (by norm_num [distSq, qpt])

theorem eggCurv_example :
    eggCurv (0, 0) (4, 0) (2, 5 / 6) (169 / 36) (2, 3)
      = 2 * (3.1415 : ℝ) - Real.arccos ((-119 / 36 : ℝ) / ((13 / 6 : ℝ)) ^ 2) := by
  rw [eggCurv]
  simp only [sqrt_169_36, distPx_em_chordmid]
  rw [if_pos (by norm_num)]
  norm_num

/-- Claim C2, counterexample: the eight-point data with poles `(0,0)`,
`(4,0)` and egg middle `(2,3)` fits the circle centered `(2,5/6)` with
radius `13/6`; the egg middle lies `3 > 13/6` from the chord midpoint,
so the correction branch runs — but the stored angle is
`2*3.1415 - angle`, which differs from the claimed `2*pi - angle`
because `pi` is not `3.1415`. -/
theorem c2_counterexample :
    (∃ fo, finalize (⟨none, none, none, none, some (0, 0), some (4, 0),
        some (2, 2), some (2, 4), some (2, 3), some (some (2, 5 / 6)),
        some (some (169 / 36)), some (1, 1), some (1, 4), some (3, 1), some (3, 4),
        none, none⟩ : ClickData) 9 .m 1 = some fo ∧
      fo.curvature_rad = some (eggCurv (0, 0) (4, 0) (2, 5 / 6) (169 / 36) (2, 3))) ∧
    eggCurv (0, 0) (4, 0) (2, 5 / 6) (169 / 36) (2, 3)
      = 2 * (3.1415 : ℝ) - Real.arccos ((-119 / 36 : ℝ) / ((13 / 6 : ℝ)) ^ 2) ∧
    2 * (3.1415 : ℝ) - Real.arccos ((-119 / 36 : ℝ) / ((13 / 6 : ℝ)) ^ 2)
      ≠ 2 * Real.pi - Real.arccos ((-119 / 36 : ℝ) / ((13 / 6 : ℝ)) ^ 2) := by
  refine ⟨?_, eggCurv_example, ?_⟩
  · simp [finalize, absolute_block]
  · intro h
    have hpi := Real.pi_gt_d6
    have : (3.1415 : ℝ) = Real.pi := by linarith
    linarith

/-- Claim C2, witness: the amended theorem applied to the concrete
eight-point session above (successful fit) and to the same session with
a `Degenerate` fit (both curvature values zero). -/
theorem c2_witness :
    (∃ fo, finalize (⟨none, none, none, none, some (0, 0), some (4, 0),
        some (2, 2), some (2, 4), some (2, 3), some (some (2, 5 / 6)),
        some (some (169 / 36)), some (1, 1), some (1, 4), some (3, 1), some (3, 4),
        none, none⟩ : ClickData) 9 .m 1 = some fo ∧
      fo.curvature_rad = some (eggCurv (0, 0) (4, 0) (2, 5 / 6) (169 / 36) (2, 3)) ∧
      fo.curvature_deg
        = some (eggCurv (0, 0) (4, 0) (2, 5 / 6) (169 / 36) (2, 3) * 180 / (3.1415 : ℝ)) ∧
      fo.length_curved_px
        = some (eggCurv (0, 0) (4, 0) (2, 5 / 6) (169 / 36) (2, 3)
            * Real.sqrt (((169 / 36 : ℚ)) : ℝ))) ∧
    (∃ fo, finalize (⟨none, none, none, none, some (0, 0), some (4, 0),
        some (2, 2), some (2, 4), some (2, 3), some none, some none,
        some (1, 1), some (1, 4), some (3, 1), some (3, 4),
        none, none⟩ : ClickData) 9 .m 1 = some fo ∧
      fo.curvature_rad = some 0 ∧ fo.curvature_deg = some 0) := by
  constructor
  · exact (c2_curvature_amended _ .m 1 (0, 0) (4, 0) (2, 2) (2, 4) (1, 1) (1, 4)
      (3, 1) (3, 4) (2, 3) rfl rfl rfl rfl rfl rfl rfl rfl rfl).1
      (169 / 36) (2, 5 / 6) rfl rfl
  · exact (c2_curvature_amended _ .m 1 (0, 0) (4, 0) (2, 2) (2, 4) (1, 1) (1, 4)
      (3, 1) (3, 4) (2, 3) rfl rfl rfl rfl rfl rfl rfl rfl rfl).2 rfl

/-- Claim C3 (code bug): with a malformed line between two well-formed
records, every well-formed record is still processed, but
`number_of_entries` counts the malformed line while `file_list` does
not, so the entry loop indexes past the end of `file_list` and the run
aborts with an uncaught `IndexError` instead of terminating normally;
without malformed lines the run terminates normally. -/
theorem c3_malformed_aborts (r1 r2 : Dict) :
    main_read_loop [some r1, none, some r2] = ([r1, r2], true) ∧
    main_read_loop [some r1, some r2] = ([r1, r2], false) := by
  constructor <;> rfl

end Egg
